import Mathlib

/-!
Verification of the Identity & Access Provisioning subsystem of the
chart-breaker EHR back end: the registration/approval workflow
(`src/routes/assessments.js`, auth-verification section), the login and
admin-register endpoints (`src/routes/auth.js`), and the authentication
and authorization gates (`src/middleware/auth.js`).

The JavaScript handlers are shallowly embedded as pure Lean functions over
an explicit store state.  Nondeterministic inputs of the original code
(generated verification codes, crypto tokens, fresh row ids, the current
wall-clock time, the bcrypt hash, the outcome of JWT verification, and the
notifier's result) are passed as explicit parameters.  Timestamps are
naturals (milliseconds).  JavaScript `undefined`/`null` fields are
`Option`.  Roles and statuses are the string literals the code compares.
-/

namespace ChartBreaker

/-- An HTTP reply as the handlers produce it: the status code plus the
machine-readable `code` field of the JSON body (`none` when the body has
no `code` field, e.g. the Joi validation-error reply). -/
structure ApiResponse where
  status : Nat
  code : Option String
deriving Repr, DecidableEq

/-- A row of the `user` table (fields the core reads/writes).  The
identifier column is `id`; there is no `userId` column. -/
structure User where
  id : String
  email : String
  passwordHash : String
  firstName : String
  lastName : String
  role : String
  isActive : Bool
  lastLogin : Option Nat := none
deriving Repr, DecidableEq

/-- A row of the `userRegistrationRequest` table. -/
structure RegistrationRequest where
  id : String
  email : String
  firstName : String
  lastName : String
  role : String
  status : String
  verificationCode : Option String
  verificationExpires : Option Nat
  completionToken : Option String := none
  completionTokenExpires : Option Nat := none
  approvedAt : Option Nat := none
  approvedBy : Option String := none
  adminNotes : Option String := none
  requestedAt : Nat
deriving Repr, DecidableEq

/-- The persistent store: the two tables the core touches. -/
structure Store where
  users : List User
  requests : List RegistrationRequest
deriving Repr, DecidableEq

/-- `prisma.user.findUnique({ where: { email } })`. -/
def findUserByEmail (s : Store) (email : String) : Option User :=
  s.users.find? (fun u => u.email == email)

/-- `prisma.user.findUnique({ where: { id } })`. -/
def findUserById (s : Store) (id : String) : Option User :=
  s.users.find? (fun u => u.id == id)

/-- `prisma.userRegistrationRequest.findUnique({ where: { email } })`. -/
def findRequestByEmail (s : Store) (email : String) : Option RegistrationRequest :=
  s.requests.find? (fun r => r.email == email)

/-- `prisma.userRegistrationRequest.findUnique({ where: { id } })`. -/
def findRequestById (s : Store) (id : String) : Option RegistrationRequest :=
  s.requests.find? (fun r => r.id == id)

/-- `prisma.userRegistrationRequest.update({ where: { email }, data })`:
rewrite the row whose unique `email` matches. -/
def updateRequestByEmail (s : Store) (email : String)
    (f : RegistrationRequest → RegistrationRequest) : Store :=
  { s with requests := s.requests.map (fun r => if r.email == email then f r else r) }

/-- `prisma.userRegistrationRequest.update({ where: { id }, data })`. -/
def updateRequestById (s : Store) (id : String)
    (f : RegistrationRequest → RegistrationRequest) : Store :=
  { s with requests := s.requests.map (fun r => if r.id == id then f r else r) }

/-! ## Token Issuer (JWT), abstracted

`jwt.verify(token, JWT_SECRET)` either returns the decoded claims, throws
`TokenExpiredError`, or throws another verification error.  The claims the
code signs are `{ userId, email, role }`. -/

/-- The payload `jwt.sign` puts in a session token. -/
structure Claims where
  userId : String
  email : String
  role : String
deriving Repr, DecidableEq

/-- Outcome of `jwt.verify`: decoded claims, or the `TokenExpiredError`
exception, or any other verification failure. -/
inductive VerifyOutcome where
  | ok (claims : Claims)
  | expired
  | invalid
deriving Repr, DecidableEq

/-! ## Authentication Gate (`src/middleware/auth.js`) -/

/-- Split a character list at every occurrence of `sep`
(the semantics of JavaScript `String.prototype.split`). -/
def splitOnChar (sep : Char) : List Char → List (List Char)
  | [] => [[]]
  | c :: cs =>
    let rest := splitOnChar sep cs
    if c == sep then
      [] :: rest
    else
      match rest with
      | [] => [[c]]
      | w :: ws => (c :: w) :: ws

/-- `const token = authHeader && authHeader.split(' ')[1]` followed by the
`if (!token)` falsiness check: yields `none` when the header is absent,
has no second word, or the second word is empty. -/
def extractToken (authHeader : Option String) : Option String :=
  match authHeader with
  | none => none
  | some h =>
    match (splitOnChar ' ' h.toList).get? 1 with
    | none => none
    | some w => if w.isEmpty then none else some (String.mk w)

/-- Result of the `authenticateToken` middleware: an error reply, or
`next()` with the resolved user attached as `req.user`. -/
inductive AuthResult where
  | fail (status : Nat) (code : String)
  | success (user : User)
deriving Repr, DecidableEq

/-- `authenticateToken` from `src/middleware/auth.js`.  `verify` stands for
`jwt.verify` with the process-wide secret. -/
def authenticateToken (verify : String → VerifyOutcome) (s : Store)
    (authHeader : Option String) : AuthResult :=
  match extractToken authHeader with
  | none => .fail 401 "MISSING_TOKEN"
  | some token =>
    match verify token with
    | .ok claims =>
      match findUserById s claims.userId with
      | none => .fail 401 "INVALID_USER"
      | some u => if u.isActive then .success u else .fail 401 "INVALID_USER"
    | .expired => .fail 401 "TOKEN_EXPIRED"
    | .invalid => .fail 403 "INVALID_TOKEN"

/-- Result of the `requireRole(roles)` middleware. -/
inductive RoleResult where
  | fail (status : Nat) (code : String)
  | next
deriving Repr, DecidableEq

/-- `requireRole` from `src/middleware/auth.js`; `ruser` is `req.user` as
left (or not) by `authenticateToken`. -/
def requireRole (roles : List String) (ruser : Option User) : RoleResult :=
  match ruser with
  | none => .fail 401 "AUTH_REQUIRED"
  | some u =>
    if roles.contains u.role then .next
    else .fail 403 "INSUFFICIENT_PERMISSIONS"

/-! ## Joi validation schemas (`src/routes/assessments.js`, auth-verification
section, and `src/routes/auth.js`)

`Joi.string().email()` is library code, not repository code; it is
abstracted here by a simple executable well-formedness check (nonempty
local part, nonempty domain containing a dot).  No claim below depends on
the exact email grammar: theorems either quantify over the input or use
inputs this check accepts, such as `a@x.com`. -/

/-- Abstraction of `Joi.string().email()`. -/
def emailFormatOk (s : String) : Bool :=
  match splitOnChar '@' s.toList with
  | [localPart, domain] =>
    !localPart.isEmpty && !domain.isEmpty &&
      (let labels := splitOnChar '.' domain
       decide (2 ≤ labels.length) && labels.all (fun l => !l.isEmpty))
  | _ => false

/-- The `role` values `requestRegistrationSchema` and the handler's own
`validRoles` list accept (line 475 of `src/routes/assessments.js`). -/
def validRoles : List String := ["INTAKE_STAFF", "CLINICIAN", "QA_REVIEWER", "BILLER"]

/-- Body of `POST /request-registration`. -/
structure ReqRegInput where
  email : String
  firstName : String
  lastName : String
  role : String
deriving Repr, DecidableEq

/-- `requestRegistrationSchema.validate` succeeding. -/
def requestRegistrationSchemaOk (i : ReqRegInput) : Bool :=
  emailFormatOk i.email &&
  decide (2 ≤ i.firstName.length) && decide (i.firstName.length ≤ 100) &&
  decide (2 ≤ i.lastName.length) && decide (i.lastName.length ≤ 100) &&
  validRoles.contains i.role

/-- `verifyEmailSchema.validate` succeeding. -/
def verifyEmailSchemaOk (email verificationCode : String) : Bool :=
  emailFormatOk email && decide (verificationCode.length = 6)

/-- `completeRegistrationSchema.validate` succeeding. -/
def completeRegistrationSchemaOk (email password token : String) : Bool :=
  emailFormatOk email && decide (8 ≤ password.length) && decide (10 ≤ token.length)

/-- `loginSchema.validate` succeeding (`src/routes/auth.js`). -/
def loginSchemaOk (email password : String) : Bool :=
  emailFormatOk email && decide (6 ≤ password.length)

/-! ## Registration Workflow Engine (`src/routes/assessments.js`) -/

/-- 24 hours in milliseconds: the verification-code validity window. -/
def verificationWindowMs : Nat := 24 * 60 * 60 * 1000

/-- 12 hours in milliseconds: the completion-token validity window. -/
def completionWindowMs : Nat := 12 * 60 * 60 * 1000

/-- The `data` object of the upsert's update branch in
`POST /request-registration`: refresh name, role, code, expiry, status and
request timestamp. -/
def requestUpd (i : ReqRegInput) (genCode : String) (now : Nat) :
    RegistrationRequest → RegistrationRequest := fun q =>
  { q with firstName := i.firstName, lastName := i.lastName, role := i.role,
           verificationCode := some genCode,
           verificationExpires := some (now + verificationWindowMs),
           status := "PENDING", requestedAt := now }

/-- The `data` object of the update in `POST /verify-email`: clear the
code and its expiry (status stays PENDING). -/
def verifyUpd : RegistrationRequest → RegistrationRequest := fun q =>
  { q with verificationCode := none, verificationExpires := none }

/-- The `data` object of the update in `POST /complete-registration`:
keep status APPROVED and null out the completion token and its expiry. -/
def completeUpd : RegistrationRequest → RegistrationRequest := fun q =>
  { q with status := "APPROVED", completionToken := none,
           completionTokenExpires := none }

/-- The `data` object of the update in
`POST /admin/approve-registration/:requestId`.  The handler also writes
`approvedBy: req.user.userId`, but `req.user` is the database user row
attached by `authenticateToken`, whose identifier field is `id`; there is
no `userId` field, so that value is `undefined` and Prisma leaves the
`approvedBy` column untouched.  An absent `adminNotes` body field
(`none`) is likewise skipped. -/
def approveUpd (adminNotes : Option String) (genToken : String) (now : Nat) :
    RegistrationRequest → RegistrationRequest := fun q =>
  { q with status := "APPROVED", approvedAt := some now,
           adminNotes := match adminNotes with | none => q.adminNotes | some v => some v,
           completionToken := some genToken,
           completionTokenExpires := some (now + completionWindowMs) }

/-- The `data` object of the update in
`POST /admin/reject-registration/:requestId`.  Same `req.user.userId`
slip as in approve: `approvedBy` is left untouched.  `adminNotes:
adminNotes || reason` falls back to the reason when the notes are absent
or empty. -/
def rejectUpd (reasonVal : String) (adminNotes : Option String) (now : Nat) :
    RegistrationRequest → RegistrationRequest := fun q =>
  { q with status := "REJECTED", approvedAt := some now,
           adminNotes := some (match adminNotes with
             | some a => if a == "" then reasonVal else a
             | none => reasonVal) }

/-- `POST /request-registration`.  `genCode` is the generated 6-digit
verification code, `newId` the row id Prisma would mint on create, `now`
the wall clock, `emailSent` the notifier's boolean result (the shipped
`emailService.sendVerificationEmail` returns `true` on every path, but the
handler still branches on it). -/
def requestRegistration (s : Store) (i : ReqRegInput) (genCode newId : String)
    (now : Nat) (emailSent : Bool) : ApiResponse × Store :=
  if !requestRegistrationSchemaOk i then (⟨400, none⟩, s)
  else if i.email == "" || i.firstName == "" || i.lastName == "" || i.role == "" then
    (⟨400, some "MISSING_FIELDS"⟩, s)
  else if !validRoles.contains i.role then (⟨400, some "INVALID_ROLE"⟩, s)
  else match findUserByEmail s i.email with
    | some _ => (⟨400, some "USER_EXISTS"⟩, s)
    | none =>
      match findRequestByEmail s i.email with
      | some r =>
        if r.status == "PENDING" then (⟨400, some "REQUEST_PENDING"⟩, s)
        else
          -- upsert, update branch: refresh the existing row
          let s1 := updateRequestByEmail s i.email (requestUpd i genCode now)
          if !emailSent then (⟨500, some "EMAIL_SEND_FAILED"⟩, s1) else (⟨200, none⟩, s1)
      | none =>
        -- upsert, create branch
        let s1 : Store :=
          { s with requests := s.requests ++
              [{ id := newId, email := i.email, firstName := i.firstName,
                 lastName := i.lastName, role := i.role, status := "PENDING",
                 verificationCode := some genCode,
                 verificationExpires := some (now + verificationWindowMs),
                 requestedAt := now }] }
        if !emailSent then (⟨500, some "EMAIL_SEND_FAILED"⟩, s1) else (⟨200, none⟩, s1)

/-- `POST /verify-email`.  The expiry comparison mirrors the JavaScript
`new Date() > registrationRequest.verificationExpires`, where a `null`
expiry coerces to epoch 0. -/
def verifyEmail (s : Store) (email verificationCode : String) (now : Nat) :
    ApiResponse × Store :=
  if !verifyEmailSchemaOk email verificationCode then (⟨400, none⟩, s)
  else if email == "" || verificationCode == "" then (⟨400, some "MISSING_FIELDS"⟩, s)
  else match findRequestByEmail s email with
    | none => (⟨400, some "REQUEST_NOT_FOUND"⟩, s)
    | some r =>
      if r.status != "PENDING" then (⟨400, some "REQUEST_NOT_PENDING"⟩, s)
      else if r.verificationCode != some verificationCode then (⟨400, some "INVALID_CODE"⟩, s)
      else if (match r.verificationExpires with
               | some t => decide (t < now)
               | none => decide (0 < now)) then (⟨400, some "CODE_EXPIRED"⟩, s)
      else
        (⟨200, none⟩, updateRequestByEmail s email verifyUpd)

/-- `POST /complete-registration`.  `pwHash` stands for the bcrypt hash of
`password`, `newUserId` for the row id Prisma mints for the new user.  The
token check mirrors `!r.completionToken || r.completionToken !== token`
(a stored `null` or empty-string token is always invalid); the expiry
check is guarded by truthiness, so a `null` expiry skips it. -/
def completeRegistration (s : Store) (email password token : String)
    (pwHash newUserId : String) (now : Nat) : ApiResponse × Store :=
  if !completeRegistrationSchemaOk email password token then (⟨400, none⟩, s)
  else if email == "" || password == "" || token == "" then
    (⟨400, some "MISSING_FIELDS"⟩, s)
  else match findRequestByEmail s email with
    | none => (⟨400, some "REQUEST_NOT_FOUND"⟩, s)
    | some r =>
      if r.status != "APPROVED" then (⟨400, some "REQUEST_NOT_APPROVED"⟩, s)
      else if (match r.completionToken with
               | none => true
               | some ct => ct == "" || ct != token) then
        (⟨400, some "INVALID_COMPLETION_TOKEN"⟩, s)
      else if (match r.completionTokenExpires with
               | some t => decide (t < now)
               | none => false) then (⟨400, some "COMPLETION_TOKEN_EXPIRED"⟩, s)
      else match findUserByEmail s email with
        | some _ => (⟨400, some "USER_EXISTS"⟩, s)
        | none =>
          let newUser : User :=
            { id := newUserId, email := email, passwordHash := pwHash,
              firstName := r.firstName, lastName := r.lastName, role := r.role,
              isActive := true }
          let s1 : Store := { s with users := s.users ++ [newUser] }
          let s2 := updateRequestByEmail s1 email completeUpd
          (⟨200, none⟩, s2)

/-- `POST /admin/approve-registration/:requestId`, handler body after the
gates.  `admin` is `req.user` as attached by `authenticateToken` — the
database user row.  The handler writes `approvedBy: req.user.userId`, but a
user row has an `id` field and no `userId` field, so that value is
`undefined` and Prisma leaves the `approvedBy` column untouched (every
other handler in the repository reads `req.user.id`).  `adminNotes = none`
models an absent body field, which Prisma likewise skips. -/
def approveRegistration (s : Store) (requestId : String) (adminNotes : Option String)
    (admin : User) (genToken : String) (now : Nat) : ApiResponse × Store :=
  match findRequestById s requestId with
  | none => (⟨404, some "REQUEST_NOT_FOUND"⟩, s)
  | some r =>
    if r.status != "PENDING" then (⟨400, some "REQUEST_NOT_PENDING"⟩, s)
    else
      let s1 := updateRequestById s requestId (approveUpd adminNotes genToken now)
      (⟨200, none⟩, s1)

/-- `POST /admin/reject-registration/:requestId`, handler body after the
gates.  `reason = none` (or an empty string) is falsy, so the handler
replies `MISSING_REASON`.  Same `req.user.userId` slip as in approve:
`approvedBy` is left untouched.  `adminNotes: adminNotes || reason` falls
back to the reason when the notes are absent or empty. -/
def rejectRegistration (s : Store) (requestId : String) (reason adminNotes : Option String)
    (admin : User) (now : Nat) : ApiResponse × Store :=
  if (match reason with | none => true | some x => x == "") then
    (⟨400, some "MISSING_REASON"⟩, s)
  else match findRequestById s requestId with
    | none => (⟨404, some "REQUEST_NOT_FOUND"⟩, s)
    | some r =>
      if r.status != "PENDING" then (⟨400, some "REQUEST_NOT_PENDING"⟩, s)
      else
        let s1 := updateRequestById s requestId
          (rejectUpd (match reason with | some x => x | none => "") adminNotes now)
        (⟨200, none⟩, s1)

/-- The full `POST /admin/approve-registration/:requestId` route:
`authenticateToken`, then `requireRole(['ADMIN'])`, then the handler. -/
def approveRoute (verify : String → VerifyOutcome) (s : Store) (authHeader : Option String)
    (requestId : String) (adminNotes : Option String) (genToken : String) (now : Nat) :
    ApiResponse × Store :=
  match authenticateToken verify s authHeader with
  | .fail st c => (⟨st, some c⟩, s)
  | .success u =>
    match requireRole ["ADMIN"] (some u) with
    | .fail st c => (⟨st, some c⟩, s)
    | .next => approveRegistration s requestId adminNotes u genToken now

/-! ## Login (`src/routes/auth.js`) -/

/-- JavaScript `String.prototype.toLowerCase` restricted to ASCII, which is
all the code compares. -/
def toLowerString (s : String) : String :=
  String.mk (s.toList.map Char.toLower)

/-- `POST /login`.  `checkPw password hash` stands for
`bcrypt.compare(password, hash)`.  The lookup lowercases the submitted
email (`where: { email: email.toLowerCase() }`) and matches the stored
email exactly. -/
def login (s : Store) (email password : String) (checkPw : String → String → Bool)
    (now : Nat) : ApiResponse × Store :=
  if !loginSchemaOk email password then (⟨400, none⟩, s)
  else match findUserByEmail s (toLowerString email) with
    | none => (⟨401, some "INVALID_CREDENTIALS"⟩, s)
    | some u =>
      if !u.isActive then (⟨401, some "ACCOUNT_DEACTIVATED"⟩, s)
      else if !checkPw password u.passwordHash then (⟨401, some "INVALID_CREDENTIALS"⟩, s)
      else
        (⟨200, none⟩,
          { s with users := s.users.map (fun v =>
              if v.id == u.id then { v with lastLogin := some now } else v) })

/-! ## Helper lemmas -/

/-- `find?` after a key-preserving conditional update: updating the rows
matching a key and then looking the key up returns the updated row. -/
theorem find?_map_keyed {α : Type} (key : α → String) (k : String) (f : α → α)
    (hf : ∀ a, key (f a) = key a) (l : List α) :
    (l.map (fun a => if key a == k then f a else a)).find? (fun a => key a == k)
      = (l.find? (fun a => key a == k)).map f := by
  induction l with
  | nil => rfl
  | cons a t ih =>
    cases h : (key a == k) with
    | true =>
      have hfa : (key (f a) == k) = true := by rw [hf]; exact h
      simp only [List.map_cons, List.find?_cons, h, hfa, if_true, Option.map_some']
    | false =>
      simp only [List.map_cons, List.find?_cons, h, if_false, Bool.false_eq_true,
        cond_false, ih]

/-- A string of length at least `n > 0` is not the empty string. -/
theorem beq_empty_false_of_length {s : String} {n : Nat} (hn : 0 < n)
    (h : n ≤ s.length) : (s == "") = false := by
  cases he : (s == "") with
  | false => rfl
  | true =>
    have hs : s = "" := eq_of_beq he
    subst hs
    have h0 : ("" : String).length = 0 := rfl
    omega

/-- A string the email-format check accepts is nonempty. -/
theorem beq_empty_false_of_emailFormat {s : String} (h : emailFormatOk s = true) :
    (s == "") = false := by
  cases he : (s == "") with
  | false => rfl
  | true =>
    have hs : s = "" := eq_of_beq he
    subst hs
    exact absurd h (by decide)

/-- A string in `validRoles` is nonempty. -/
theorem beq_empty_false_of_validRole {s : String} (h : validRoles.contains s = true) :
    (s == "") = false := by
  cases he : (s == "") with
  | false => rfl
  | true =>
    have hs : s = "" := eq_of_beq he
    subst hs
    exact absurd h (by decide)

/-- Unpack a passing `requestRegistrationSchema` validation. -/
theorem requestRegistrationSchemaOk_spec {i : ReqRegInput}
    (h : requestRegistrationSchemaOk i = true) :
    emailFormatOk i.email = true ∧ 2 ≤ i.firstName.length ∧ 2 ≤ i.lastName.length ∧
      validRoles.contains i.role = true := by
  simp only [requestRegistrationSchemaOk, Bool.and_eq_true, decide_eq_true_eq] at h
  exact ⟨h.1.1.1.1.1, h.1.1.1.1.2, h.1.1.2, h.2⟩

/-! ## Claims -/

/-- C1: every `POST /request-registration` input whose `role` field is
`ADMIN` fails schema validation (the 400 reply with no error code) and
leaves the store — hence every RegistrationRequest — untouched, for every
store state and all other input fields. -/
theorem requestRegistration_admin_role_rejected
    (s : Store) (i : ReqRegInput) (genCode newId : String) (now : Nat) (emailSent : Bool)
    (h : i.role = "ADMIN") :
    requestRegistration s i genCode newId now emailSent = (⟨400, none⟩, s) := by
  have hc : validRoles.contains i.role = false := by rw [h]; decide
  have hjoi : requestRegistrationSchemaOk i = false := by
    unfold requestRegistrationSchemaOk
    rw [hc, Bool.and_false]
  simp [requestRegistration, hjoi]

/-- Witness for C1: a concrete `ADMIN` request against the empty store. -/
theorem requestRegistration_admin_role_rejected_witness :
    requestRegistration ⟨[], []⟩ ⟨"b@x.com", "Al", "Bee", "ADMIN"⟩ "111111" "r9" 10 true
      = (⟨400, none⟩, ⟨[], []⟩) :=
  requestRegistration_admin_role_rejected ⟨[], []⟩ ⟨"b@x.com", "Al", "Bee", "ADMIN"⟩
    "111111" "r9" 10 true rfl

/-- C2: a cryptographically valid, unexpired bearer token (`verify` returns
decoded claims) naming a user whose `isActive` flag is false is rejected by
`authenticateToken` with HTTP 401 and code `INVALID_USER`; the result is a
failure, so no user is attached to the request context. -/
theorem authenticateToken_inactive_user_rejected
    (verify : String → VerifyOutcome) (s : Store) (authHeader : Option String)
    (token : String) (claims : Claims) (u : User)
    (hTok : extractToken authHeader = some token)
    (hVer : verify token = .ok claims)
    (hFind : findUserById s claims.userId = some u)
    (hInactive : u.isActive = false) :
    authenticateToken verify s authHeader = .fail 401 "INVALID_USER" := by
  simp [authenticateToken, hTok, hVer, hFind, hInactive]

/-- Witness for C2: a concrete store with a deactivated user and a token
that verifies to that user's claims. -/
theorem authenticateToken_inactive_user_rejected_witness :
    authenticateToken
      (fun t => if t == "tok" then .ok ⟨"u1", "a@x.com", "CLINICIAN"⟩ else .invalid)
      ⟨[{ id := "u1", email := "a@x.com", passwordHash := "h", firstName := "Al",
          lastName := "Bee", role := "CLINICIAN", isActive := false }], []⟩
      (some "Bearer tok")
      = .fail 401 "INVALID_USER" :=
  authenticateToken_inactive_user_rejected _ _ _ "tok" ⟨"u1", "a@x.com", "CLINICIAN"⟩
    { id := "u1", email := "a@x.com", passwordHash := "h", firstName := "Al",
      lastName := "Bee", role := "CLINICIAN", isActive := false }
    (by decide) (by decide) (by decide) rfl

/-- C3 counterexample: a present token whose verification fails with a
generic (non-expiry) error — e.g. a bad signature — is an Authentication
Gate failure, yet `authenticateToken` replies with HTTP 403, not 401. -/
theorem authenticateToken_invalid_token_is_403 :
    authenticateToken (fun t => VerifyOutcome.invalid) ⟨[], []⟩ (some "Bearer zzz")
      = .fail 403 "INVALID_TOKEN" ∧ (403 : Nat) ≠ 401 := by
  constructor
  · rfl
  · decide

/-- C3 amended: Authentication Gate failures return 401 for a missing
token, an expired token, and an unknown or inactive user, but 403 for any
other token-verification failure (code `INVALID_TOKEN`); Authorization
Gate failures return 401 for a missing principal (`AUTH_REQUIRED`) and 403
for a role mismatch (`INSUFFICIENT_PERMISSIONS`). -/
theorem gate_failure_status_codes
    (verify : String → VerifyOutcome) (s : Store) (authHeader : Option String)
    (st : Nat) (c : String) (roles : List String) (ruser : Option User)
    (st2 : Nat) (c2 : String)
    (h1 : authenticateToken verify s authHeader = .fail st c)
    (h2 : requireRole roles ruser = .fail st2 c2) :
    ((c = "INVALID_TOKEN" → st = 403) ∧ (c ≠ "INVALID_TOKEN" → st = 401)) ∧
    ((c2 = "INSUFFICIENT_PERMISSIONS" → st2 = 403) ∧
     (c2 ≠ "INSUFFICIENT_PERMISSIONS" → st2 = 401)) := by
  constructor
  · unfold authenticateToken at h1
    cases hE : extractToken authHeader with
    | none =>
      rw [hE] at h1
      cases h1
      exact ⟨fun hcc => absurd hcc.symm (by decide), fun _ => rfl⟩
    | some token =>
      rw [hE] at h1
      dsimp only at h1
      cases hV : verify token with
      | ok claims =>
        rw [hV] at h1
        dsimp only at h1
        cases hF : findUserById s claims.userId with
        | none =>
          rw [hF] at h1
          cases h1
          exact ⟨fun hcc => absurd hcc.symm (by decide), fun _ => rfl⟩
        | some u =>
          rw [hF] at h1
          dsimp only at h1
          cases hA : u.isActive with
          | true => rw [hA] at h1; simp at h1
          | false =>
            rw [hA] at h1
            simp only [Bool.false_eq_true, if_false] at h1
            cases h1
            exact ⟨fun hcc => absurd hcc.symm (by decide), fun _ => rfl⟩
      | expired =>
        rw [hV] at h1
        cases h1
        exact ⟨fun hcc => absurd hcc.symm (by decide), fun _ => rfl⟩
      | invalid =>
        rw [hV] at h1
        cases h1
        exact ⟨fun _ => rfl, fun hcc => absurd rfl hcc⟩
  · unfold requireRole at h2
    cases ruser with
    | none =>
      cases h2
      exact ⟨fun hcc => absurd hcc.symm (by decide), fun _ => rfl⟩
    | some u =>
      dsimp only at h2
      cases hR : roles.contains u.role with
      | true => rw [hR] at h2; simp at h2
      | false =>
        rw [hR] at h2
        simp only [Bool.false_eq_true, if_false] at h2
        cases h2
        exact ⟨fun _ => rfl, fun hcc => absurd rfl hcc⟩

/-- Witness for the amended C3: a bad-signature token for the
authentication gate and a role mismatch for the authorization gate. -/
theorem gate_failure_status_codes_witness :
    ((("INVALID_TOKEN" : String) = "INVALID_TOKEN" → (403 : Nat) = 403) ∧
     (("INVALID_TOKEN" : String) ≠ "INVALID_TOKEN" → (403 : Nat) = 401)) ∧
    ((("INSUFFICIENT_PERMISSIONS" : String) = "INSUFFICIENT_PERMISSIONS" → (403 : Nat) = 403) ∧
     (("INSUFFICIENT_PERMISSIONS" : String) ≠ "INSUFFICIENT_PERMISSIONS" → (403 : Nat) = 401)) :=
  gate_failure_status_codes (fun t => VerifyOutcome.invalid) ⟨[], []⟩ (some "Bearer zzz")
    403 "INVALID_TOKEN" ["ADMIN"]
    (some { id := "u1", email := "a@x.com", passwordHash := "h", firstName := "Al",
            lastName := "Bee", role := "CLINICIAN", isActive := true })
    403 "INSUFFICIENT_PERMISSIONS" rfl rfl

/-! Fixtures for C4: an active admin, a PENDING request, and a token that
verifies to the admin's claims. -/

/-- C4 fixture: the approving admin's user row (id `admin-1`). -/
def c4Admin : User :=
  { id := "admin-1", email := "admin@x.com", passwordHash := "h", firstName := "Ad",
    lastName := "Min", role := "ADMIN", isActive := true }

/-- C4 fixture: a PENDING registration request. -/
def c4Req : RegistrationRequest :=
  { id := "r1", email := "a@x.com", firstName := "Al", lastName := "Bee",
    role := "CLINICIAN", status := "PENDING",
    verificationCode := none, verificationExpires := none, requestedAt := 0 }

/-- C4 fixture: the store holding both. -/
def c4Store : Store := { users := [c4Admin], requests := [c4Req] }

/-- C4 fixture: JWT verification mapping the admin's session token to the
admin's claims. -/
def c4Verify : String → VerifyOutcome := fun t =>
  if t == "tok" then .ok ⟨"admin-1", "admin@x.com", "ADMIN"⟩ else .invalid

/-- C4: the Approve route, called by an authenticated, authorized admin on
a PENDING request, replies 200 and afterwards the stored request has
status APPROVED, a non-null completion token with a 12-hour expiry and an
approval timestamp — but `approvedBy` is still `none`, not the admin's id
`admin-1`: the handler writes `req.user.userId`, which is `undefined`
because `authenticateToken` attaches the database user, whose identifier
field is `id` (every other handler reads `req.user.id`).  So the claim's
"approving admin's user id recorded as the approver" conjunct fails. -/
theorem approve_succeeds_but_approver_not_recorded :
    (approveRoute c4Verify c4Store (some "Bearer tok") "r1" (some "notes")
        "ctoken-abcdef" 2000).fst = ⟨200, none⟩ ∧
    (findRequestById (approveRoute c4Verify c4Store (some "Bearer tok") "r1" (some "notes")
        "ctoken-abcdef" 2000).snd "r1").map
      (fun r => (r.status, r.completionToken, r.completionTokenExpires,
                 r.approvedAt, r.approvedBy))
      = some ("APPROVED", some "ctoken-abcdef", some (2000 + completionWindowMs),
              some 2000, none) ∧
    c4Admin.id = "admin-1" ∧ (none : Option String) ≠ some "admin-1" := by
  refine ⟨rfl, rfl, rfl, ?_⟩
  decide

/-- Looking up a request by id after an id-keyed update returns the
updated row, provided the update preserves the id. -/
theorem findRequestById_update (s : Store) (id : String)
    (f : RegistrationRequest → RegistrationRequest) (hf : ∀ r, (f r).id = r.id) :
    findRequestById (updateRequestById s id f) id = (findRequestById s id).map f := by
  unfold findRequestById updateRequestById
  exact find?_map_keyed (fun r : RegistrationRequest => r.id) id f hf s.requests

/-- Looking up a request by email after an email-keyed update returns the
updated row, provided the update preserves the email. -/
theorem findRequestByEmail_update (s : Store) (email : String)
    (f : RegistrationRequest → RegistrationRequest) (hf : ∀ r, (f r).email = r.email) :
    findRequestByEmail (updateRequestByEmail s email f) email
      = (findRequestByEmail s email).map f := by
  unfold findRequestByEmail updateRequestByEmail
  exact find?_map_keyed (fun r : RegistrationRequest => r.email) email f hf s.requests

/-- C10: Approve and Reject succeed only on a PENDING request (otherwise
they reply 400 `REQUEST_NOT_PENDING` and leave the store unchanged), and
after either succeeds, every subsequent Approve or Reject on the same
request id fails `REQUEST_NOT_PENDING` and leaves the store — hence the
stored status — unchanged. -/
theorem approve_reject_pending_only_and_mutex
    (s : Store) (rid : String) (r : RegistrationRequest)
    (notes notes2 : Option String) (admin admin2 : User) (tok tok2 : String)
    (now now2 : Nat) (reason : String)
    (hFind : findRequestById s rid = some r)
    (hReason : reason ≠ "") :
    (r.status ≠ "PENDING" →
      approveRegistration s rid notes admin tok now
          = (⟨400, some "REQUEST_NOT_PENDING"⟩, s) ∧
      rejectRegistration s rid (some reason) notes admin now
          = (⟨400, some "REQUEST_NOT_PENDING"⟩, s)) ∧
    (r.status = "PENDING" →
      (approveRegistration s rid notes admin tok now).fst = ⟨200, none⟩ ∧
      approveRegistration (approveRegistration s rid notes admin tok now).snd
          rid notes2 admin2 tok2 now2
        = (⟨400, some "REQUEST_NOT_PENDING"⟩,
           (approveRegistration s rid notes admin tok now).snd) ∧
      rejectRegistration (approveRegistration s rid notes admin tok now).snd
          rid (some reason) notes2 admin2 now2
        = (⟨400, some "REQUEST_NOT_PENDING"⟩,
           (approveRegistration s rid notes admin tok now).snd) ∧
      (rejectRegistration s rid (some reason) notes admin now).fst = ⟨200, none⟩ ∧
      approveRegistration (rejectRegistration s rid (some reason) notes admin now).snd
          rid notes2 admin2 tok2 now2
        = (⟨400, some "REQUEST_NOT_PENDING"⟩,
           (rejectRegistration s rid (some reason) notes admin now).snd) ∧
      rejectRegistration (rejectRegistration s rid (some reason) notes admin now).snd
          rid (some reason) notes2 admin2 now2
        = (⟨400, some "REQUEST_NOT_PENDING"⟩,
           (rejectRegistration s rid (some reason) notes admin now).snd)) := by
  constructor
  · intro hNe
    constructor
    · simp [approveRegistration, hFind, hNe]
    · simp [rejectRegistration, hReason, hFind, hNe]
  · intro hPend
    have happ : approveRegistration s rid notes admin tok now
        = (⟨200, none⟩, updateRequestById s rid (approveUpd notes tok now)) := by
      simp [approveRegistration, hFind, hPend]
    have hrej : rejectRegistration s rid (some reason) notes admin now
        = (⟨200, none⟩, updateRequestById s rid (rejectUpd reason notes now)) := by
      simp [rejectRegistration, hReason, hFind, hPend]
    have hFindA : findRequestById (updateRequestById s rid (approveUpd notes tok now)) rid
        = some (approveUpd notes tok now r) := by
      rw [findRequestById_update s rid (approveUpd notes tok now) (fun q => rfl), hFind]
      rfl
    have hFindR : findRequestById (updateRequestById s rid (rejectUpd reason notes now)) rid
        = some (rejectUpd reason notes now r) := by
      rw [findRequestById_update s rid (rejectUpd reason notes now) (fun q => rfl), hFind]
      rfl
    have hAs : (approveUpd notes tok now r).status = "APPROVED" := rfl
    have hRs : (rejectUpd reason notes now r).status = "REJECTED" := rfl
    refine ⟨by rw [happ], ?_, ?_, by rw [hrej], ?_, ?_⟩
    · rw [happ]
      simp [approveRegistration, hFindA, hAs]
    · rw [happ]
      simp [rejectRegistration, hReason, hFindA, hAs]
    · rw [hrej]
      simp [approveRegistration, hFindR, hRs]
    · rw [hrej]
      simp [rejectRegistration, hReason, hFindR, hRs]

/-- Witness for C10: on a concrete store with one PENDING request, the
theorem's PENDING branch yields a successful approve. -/
theorem approve_reject_pending_only_and_mutex_witness :
    (approveRegistration
        ⟨[], [{ id := "r1", email := "a@x.com", firstName := "Al", lastName := "Bee",
                role := "CLINICIAN", status := "PENDING", verificationCode := none,
                verificationExpires := none, requestedAt := 0 }]⟩
        "r1" none
        { id := "admin-1", email := "admin@x.com", passwordHash := "h", firstName := "Ad",
          lastName := "Min", role := "ADMIN", isActive := true }
        "ct" 5).fst = ⟨200, none⟩ :=
  ((approve_reject_pending_only_and_mutex
      ⟨[], [{ id := "r1", email := "a@x.com", firstName := "Al", lastName := "Bee",
              role := "CLINICIAN", status := "PENDING", verificationCode := none,
              verificationExpires := none, requestedAt := 0 }]⟩
      "r1"
      { id := "r1", email := "a@x.com", firstName := "Al", lastName := "Bee",
        role := "CLINICIAN", status := "PENDING", verificationCode := none,
        verificationExpires := none, requestedAt := 0 }
      none none
      { id := "admin-1", email := "admin@x.com", passwordHash := "h", firstName := "Ad",
        lastName := "Min", role := "ADMIN", isActive := true }
      { id := "admin-1", email := "admin@x.com", passwordHash := "h", firstName := "Ad",
        lastName := "Min", role := "ADMIN", isActive := true }
      "ct" "ct" 5 5 "because" rfl (by decide)).2 rfl).1

/-- C7 fixture: a store with one PENDING registration request for
`a@x.com` and no users. -/
def c7Store : Store :=
  ⟨[], [{ id := "r1", email := "a@x.com", firstName := "Al", lastName := "Bee",
          role := "CLINICIAN", status := "PENDING",
          verificationCode := some "123456", verificationExpires := some 1000,
          requestedAt := 0 }]⟩

/-- C7 counterexample: while a request for `a@x.com` is PENDING, a second
`POST /request-registration` for the same email does not succeed: it fails
with 400 `REQUEST_PENDING` (the store is left unchanged, so no duplicate
is created — but the call is a failure, not a success returning the
in-flight state). -/
theorem second_request_while_pending_fails :
    requestRegistration c7Store ⟨"a@x.com", "Al", "Bee", "CLINICIAN"⟩ "654321" "r2" 50 true
      = (⟨400, some "REQUEST_PENDING"⟩, c7Store) ∧ (400 : Nat) ≠ 200 := by
  constructor
  · rfl
  · decide

/-- C7 amended: for every email with a RegistrationRequest in status
PENDING (and no existing user), calling Request again for that email fails
with 400 `REQUEST_PENDING` and leaves the store unchanged — no duplicate
request is created, but the call is a conflict failure rather than a
success. -/
theorem request_while_pending_conflict
    (s : Store) (i : ReqRegInput) (genCode newId : String) (now : Nat) (emailSent : Bool)
    (r : RegistrationRequest)
    (hJoi : requestRegistrationSchemaOk i = true)
    (hUser : findUserByEmail s i.email = none)
    (hFind : findRequestByEmail s i.email = some r)
    (hSt : r.status = "PENDING") :
    requestRegistration s i genCode newId now emailSent
      = (⟨400, some "REQUEST_PENDING"⟩, s) := by
  obtain ⟨hEm, hFn, hLn, hRole⟩ := requestRegistrationSchemaOk_spec hJoi
  have h1 : i.email ≠ "" := by
    intro h
    rw [h] at hEm
    exact absurd hEm (by decide)
  have h2 : i.firstName ≠ "" := by
    intro h
    rw [h] at hFn
    exact absurd hFn (by decide)
  have h3 : i.lastName ≠ "" := by
    intro h
    rw [h] at hLn
    exact absurd hLn (by decide)
  have h4 : i.role ≠ "" := by
    intro h
    rw [h] at hRole
    exact absurd hRole (by decide)
  have hRoleMem : i.role ∈ validRoles := by simpa using hRole
  simp [requestRegistration, hJoi, h1, h2, h3, h4, hRoleMem, hUser, hFind, hSt]

/-- Witness for the amended C7: the concrete pending store. -/
theorem request_while_pending_conflict_witness :
    requestRegistration c7Store ⟨"a@x.com", "Cal", "Dee", "BILLER"⟩ "000000" "r3" 60 false
      = (⟨400, some "REQUEST_PENDING"⟩, c7Store) :=
  request_while_pending_conflict c7Store ⟨"a@x.com", "Cal", "Dee", "BILLER"⟩ "000000" "r3"
    60 false
    { id := "r1", email := "a@x.com", firstName := "Al", lastName := "Bee",
      role := "CLINICIAN", status := "PENDING",
      verificationCode := some "123456", verificationExpires := some 1000,
      requestedAt := 0 }
    (by decide) rfl rfl rfl

/-- C6 fixture: a PENDING request for `a@x.com` with verification code
`123456` expiring at time 1000. -/
def c6Store : Store :=
  ⟨[], [{ id := "r1", email := "a@x.com", firstName := "Al", lastName := "Bee",
          role := "CLINICIAN", status := "PENDING",
          verificationCode := some "123456", verificationExpires := some 1000,
          requestedAt := 0 }]⟩

/-- C6 counterexample: the first Verify with the valid `(email, code)`
pair succeeds; the second Verify with the same pair fails with
`INVALID_CODE` — not with the InvalidState code `REQUEST_NOT_PENDING` the
claim demands — because verification only clears the code fields and the
status is still PENDING. -/
theorem second_verify_fails_with_invalid_code :
    (verifyEmail c6Store "a@x.com" "123456" 500).fst = ⟨200, none⟩ ∧
    verifyEmail (verifyEmail c6Store "a@x.com" "123456" 500).snd "a@x.com" "123456" 600
      = (⟨400, some "INVALID_CODE"⟩, (verifyEmail c6Store "a@x.com" "123456" 500).snd) ∧
    some "INVALID_CODE" ≠ some "REQUEST_NOT_PENDING" := by
  refine ⟨rfl, rfl, ?_⟩
  decide

/-- C6 amended: for every valid `(email, code)` pair, Verify succeeds
exactly once; a second Verify with the same pair after the first success
fails with the `INVALID_CODE` error (the stored code has been cleared to
null while the status is still PENDING, so the mismatch branch is reached
before any state check could fire) and leaves the store unchanged. -/
theorem verify_succeeds_once_then_invalid_code
    (s : Store) (email code : String) (now now2 : Nat) (r : RegistrationRequest)
    (hJoi : verifyEmailSchemaOk email code = true)
    (hFind : findRequestByEmail s email = some r)
    (hSt : r.status = "PENDING")
    (hCode : r.verificationCode = some code)
    (hExp : (match r.verificationExpires with
             | some t => decide (t < now)
             | none => decide (0 < now)) = false) :
    verifyEmail s email code now = (⟨200, none⟩, updateRequestByEmail s email verifyUpd) ∧
    verifyEmail (updateRequestByEmail s email verifyUpd) email code now2
      = (⟨400, some "INVALID_CODE"⟩, updateRequestByEmail s email verifyUpd) := by
  have hJ := hJoi
  simp only [verifyEmailSchemaOk, Bool.and_eq_true, decide_eq_true_eq] at hJ
  have h1 : email ≠ "" := by
    intro h
    rw [h] at hJ
    exact absurd hJ.1 (by decide)
  have h2 : code ≠ "" := by
    intro h
    rw [h] at hJ
    have := hJ.2
    exact absurd this (by decide)
  have hFind2 : findRequestByEmail (updateRequestByEmail s email verifyUpd) email
      = some (verifyUpd r) := by
    rw [findRequestByEmail_update s email verifyUpd (fun q => rfl), hFind]
    rfl
  have hSt2 : (verifyUpd r).status = "PENDING" := hSt
  have hCode2 : (verifyUpd r).verificationCode = none := rfl
  constructor
  · simp [verifyEmail, hJoi, h1, h2, hFind, hSt, hCode, hExp]
  · simp [verifyEmail, hJoi, h1, h2, hFind2, hSt2, hCode2]

/-- Witness for the amended C6: the concrete `(a@x.com, 123456)` pair. -/
theorem verify_succeeds_once_then_invalid_code_witness :
    verifyEmail c6Store "a@x.com" "123456" 500
        = (⟨200, none⟩, updateRequestByEmail c6Store "a@x.com" verifyUpd) ∧
    verifyEmail (updateRequestByEmail c6Store "a@x.com" verifyUpd) "a@x.com" "123456" 600
        = (⟨400, some "INVALID_CODE"⟩, updateRequestByEmail c6Store "a@x.com" verifyUpd) :=
  verify_succeeds_once_then_invalid_code c6Store "a@x.com" "123456" 500 600
    { id := "r1", email := "a@x.com", firstName := "Al", lastName := "Bee",
      role := "CLINICIAN", status := "PENDING",
      verificationCode := some "123456", verificationExpires := some 1000,
      requestedAt := 0 }
    (by decide) rfl rfl rfl (by decide)

/-- C5: completion tokens are single-use.  A successful
`POST /complete-registration` replies 200, leaves the stored request with
`completionToken = null` and `completionTokenExpires = null`, and a second
Complete with the same token on the same email fails with 400
`INVALID_COMPLETION_TOKEN` and leaves the store unchanged — in particular
it does not create another user. -/
theorem completion_token_single_use
    (s : Store) (email password token pwHash newUserId : String)
    (password2 pwHash2 newUserId2 : String) (now now2 : Nat) (r : RegistrationRequest)
    (hJoi : completeRegistrationSchemaOk email password token = true)
    (hJoi2 : completeRegistrationSchemaOk email password2 token = true)
    (hFind : findRequestByEmail s email = some r)
    (hSt : r.status = "APPROVED")
    (hTok : r.completionToken = some token)
    (hExp : (match r.completionTokenExpires with
             | some t => decide (t < now)
             | none => false) = false)
    (hNoUser : findUserByEmail s email = none) :
    (completeRegistration s email password token pwHash newUserId now).fst = ⟨200, none⟩ ∧
    (findRequestByEmail
        (completeRegistration s email password token pwHash newUserId now).snd email).map
      (fun q => (q.completionToken, q.completionTokenExpires)) = some (none, none) ∧
    completeRegistration
        (completeRegistration s email password token pwHash newUserId now).snd
        email password2 token pwHash2 newUserId2 now2
      = (⟨400, some "INVALID_COMPLETION_TOKEN"⟩,
         (completeRegistration s email password token pwHash newUserId now).snd) := by
  have hJ := hJoi
  simp only [completeRegistrationSchemaOk, Bool.and_eq_true, decide_eq_true_eq] at hJ
  have hJ2 := hJoi2
  simp only [completeRegistrationSchemaOk, Bool.and_eq_true, decide_eq_true_eq] at hJ2
  have h1 : email ≠ "" := by
    intro h
    rw [h] at hJ
    exact absurd hJ.1.1 (by decide)
  have h2 : password ≠ "" := by
    intro h
    rw [h] at hJ
    exact absurd hJ.1.2 (by decide)
  have h3 : token ≠ "" := by
    intro h
    rw [h] at hJ
    exact absurd hJ.2 (by decide)
  have h2b : password2 ≠ "" := by
    intro h
    rw [h] at hJ2
    exact absurd hJ2.1.2 (by decide)
  have hrun : completeRegistration s email password token pwHash newUserId now
      = (⟨200, none⟩,
         updateRequestByEmail
           { s with users := s.users ++
               [{ id := newUserId, email := email, passwordHash := pwHash,
                  firstName := r.firstName, lastName := r.lastName, role := r.role,
                  isActive := true }] }
           email completeUpd) := by
    simp [completeRegistration, hJoi, h1, h2, h3, hFind, hSt, hTok, hExp, hNoUser]
  have hFind2 : findRequestByEmail
      (updateRequestByEmail
        { s with users := s.users ++
            [{ id := newUserId, email := email, passwordHash := pwHash,
               firstName := r.firstName, lastName := r.lastName, role := r.role,
               isActive := true }] }
        email completeUpd) email = some (completeUpd r) := by
    rw [findRequestByEmail_update _ email completeUpd (fun q => rfl)]
    have hsame : findRequestByEmail
        { s with users := s.users ++
            [{ id := newUserId, email := email, passwordHash := pwHash,
               firstName := r.firstName, lastName := r.lastName, role := r.role,
               isActive := true }] } email = findRequestByEmail s email := rfl
    rw [hsame, hFind]
    rfl
  have hSt2 : (completeUpd r).status = "APPROVED" := rfl
  have hTok2 : (completeUpd r).completionToken = none := rfl
  refine ⟨by rw [hrun], ?_, ?_⟩
  · rw [hrun]
    dsimp only
    rw [hFind2]
    rfl
  · rw [hrun]
    dsimp only
    simp [completeRegistration, hJoi2, h1, h2b, h3, hFind2, hSt2, hTok2]

/-- C5 fixture: an APPROVED request for `a@x.com` holding completion token
`tok-0123456789` that expires at time 99999, with no users. -/
def c5Store : Store :=
  ⟨[], [{ id := "r1", email := "a@x.com", firstName := "Al", lastName := "Bee",
          role := "CLINICIAN", status := "APPROVED",
          verificationCode := none, verificationExpires := none,
          completionToken := some "tok-0123456789",
          completionTokenExpires := some 99999, requestedAt := 0 }]⟩

/-- Witness for C5: the concrete approved store, completed at time 10 and
replayed at time 20. -/
theorem completion_token_single_use_witness :
    (completeRegistration c5Store "a@x.com" "password123" "tok-0123456789" "hash1" "u2" 10).fst
        = ⟨200, none⟩ ∧
    (findRequestByEmail
        (completeRegistration c5Store "a@x.com" "password123" "tok-0123456789" "hash1" "u2" 10).snd
        "a@x.com").map
      (fun q => (q.completionToken, q.completionTokenExpires)) = some (none, none) ∧
    completeRegistration
        (completeRegistration c5Store "a@x.com" "password123" "tok-0123456789" "hash1" "u2" 10).snd
        "a@x.com" "password456" "tok-0123456789" "hash2" "u3" 20
      = (⟨400, some "INVALID_COMPLETION_TOKEN"⟩,
         (completeRegistration c5Store "a@x.com" "password123" "tok-0123456789" "hash1" "u2" 10).snd) :=
  completion_token_single_use c5Store "a@x.com" "password123" "tok-0123456789" "hash1" "u2"
    "password456" "hash2" "u3" 10 20
    { id := "r1", email := "a@x.com", firstName := "Al", lastName := "Bee",
      role := "CLINICIAN", status := "APPROVED",
      verificationCode := none, verificationExpires := none,
      completionToken := some "tok-0123456789",
      completionTokenExpires := some 99999, requestedAt := 0 }
    (by decide) (by decide) rfl rfl rfl (by decide) rfl

/-- C8 fixture: a REJECTED registration request for `a@x.com`, no users. -/
def c8Store : Store :=
  ⟨[], [{ id := "r1", email := "a@x.com", firstName := "Al", lastName := "Bee",
          role := "CLINICIAN", status := "REJECTED",
          verificationCode := none, verificationExpires := none,
          adminNotes := some "incomplete info", requestedAt := 0 }]⟩

/-- C8 counterexample: REJECTED is not terminal under Request.  On a store
whose request for `a@x.com` is REJECTED, `POST /request-registration` for
that email succeeds (200) and the upsert's update branch resets the
request's status to PENDING with a fresh verification code. -/
theorem request_resets_rejected_request :
    (findRequestByEmail c8Store "a@x.com").map (fun q => q.status) = some "REJECTED" ∧
    (requestRegistration c8Store ⟨"a@x.com", "Al", "Bee", "CLINICIAN"⟩
        "654321" "r2" 5000 true).fst = ⟨200, none⟩ ∧
    (findRequestByEmail
        (requestRegistration c8Store ⟨"a@x.com", "Al", "Bee", "CLINICIAN"⟩
          "654321" "r2" 5000 true).snd "a@x.com").map (fun q => q.status)
      = some "PENDING" := by
  exact ⟨rfl, rfl, rfl⟩

/-- C8 amended: for a request in status REJECTED, the operations Verify,
Complete, Approve and Reject never change the store (each fails before any
write), so REJECTED is terminal for them; but Request on the same email
(with valid input and no existing user) runs the upsert's update branch,
succeeds, and resets the stored status to PENDING — REJECTED is not
terminal for Request. -/
theorem rejected_terminal_except_request
    (s : Store) (r : RegistrationRequest) (rid : String) (i : ReqRegInput)
    (code pw tok pwh nuid genCode genTok newId : String)
    (notes reasonOpt : Option String) (admin : User) (now : Nat) (emailSent : Bool)
    (hFind : findRequestByEmail s i.email = some r)
    (hSt : r.status = "REJECTED")
    (hFindId : findRequestById s rid = some r)
    (hJoi : requestRegistrationSchemaOk i = true)
    (hUser : findUserByEmail s i.email = none) :
    (verifyEmail s i.email code now).snd = s ∧
    (completeRegistration s i.email pw tok pwh nuid now).snd = s ∧
    approveRegistration s rid notes admin genTok now
        = (⟨400, some "REQUEST_NOT_PENDING"⟩, s) ∧
    (rejectRegistration s rid reasonOpt notes admin now).snd = s ∧
    (findRequestByEmail (requestRegistration s i genCode newId now emailSent).snd
        i.email).map (fun q => q.status) = some "PENDING" ∧
    (emailSent = true →
      (requestRegistration s i genCode newId now emailSent).fst = ⟨200, none⟩) := by
  have hne : r.status ≠ "PENDING" := by rw [hSt]; decide
  obtain ⟨hEm, hFn, hLn, hRole⟩ := requestRegistrationSchemaOk_spec hJoi
  have h1 : i.email ≠ "" := by
    intro h
    rw [h] at hEm
    exact absurd hEm (by decide)
  have h2 : i.firstName ≠ "" := by
    intro h
    rw [h] at hFn
    exact absurd hFn (by decide)
  have h3 : i.lastName ≠ "" := by
    intro h
    rw [h] at hLn
    exact absurd hLn (by decide)
  have h4 : i.role ≠ "" := by
    intro h
    rw [h] at hRole
    exact absurd hRole (by decide)
  have hRoleMem : i.role ∈ validRoles := by simpa using hRole
  have hrunStore : (requestRegistration s i genCode newId now emailSent).snd
      = updateRequestByEmail s i.email (requestUpd i genCode now) := by
    cases emailSent with
    | false => simp [requestRegistration, hJoi, h1, h2, h3, h4, hRoleMem, hUser, hFind, hSt]
    | true => simp [requestRegistration, hJoi, h1, h2, h3, h4, hRoleMem, hUser, hFind, hSt]
  refine ⟨?_, ?_, ?_, ?_, ?_, ?_⟩
  · cases hv : verifyEmailSchemaOk i.email code with
    | false => simp [verifyEmail, hv]
    | true =>
      simp [verifyEmail, hv, hFind, hSt]
      split <;> rfl
  · cases hv : completeRegistrationSchemaOk i.email pw tok with
    | false => simp [completeRegistration, hv]
    | true =>
      simp [completeRegistration, hv, hFind, hSt]
      split <;> rfl
  · simp [approveRegistration, hFindId, hne]
  · cases reasonOpt with
    | none => simp [rejectRegistration]
    | some x =>
      simp [rejectRegistration, hFindId, hne]
      split <;> rfl
  · rw [hrunStore, findRequestByEmail_update s i.email (requestUpd i genCode now)
        (fun q => rfl), hFind]
    rfl
  · intro hES
    subst hES
    simp [requestRegistration, hJoi, h1, h2, h3, h4, hRoleMem, hUser, hFind, hSt]

/-- Witness for the amended C8: the concrete rejected store. -/
theorem rejected_terminal_except_request_witness :
    (verifyEmail c8Store "a@x.com" "123456" 7).snd = c8Store ∧
    (completeRegistration c8Store "a@x.com" "password123" "tok-0123456789" "h" "u9" 7).snd
        = c8Store ∧
    approveRegistration c8Store "r1" none
        { id := "admin-1", email := "admin@x.com", passwordHash := "h", firstName := "Ad",
          lastName := "Min", role := "ADMIN", isActive := true } "ct" 7
        = (⟨400, some "REQUEST_NOT_PENDING"⟩, c8Store) ∧
    (rejectRegistration c8Store "r1" (some "again") none
        { id := "admin-1", email := "admin@x.com", passwordHash := "h", firstName := "Ad",
          lastName := "Min", role := "ADMIN", isActive := true } 7).snd = c8Store ∧
    (findRequestByEmail
        (requestRegistration c8Store ⟨"a@x.com", "Al", "Bee", "CLINICIAN"⟩
          "654321" "r2" 7 true).snd "a@x.com").map (fun q => q.status)
      = some "PENDING" ∧
    (true = true →
      (requestRegistration c8Store ⟨"a@x.com", "Al", "Bee", "CLINICIAN"⟩
          "654321" "r2" 7 true).fst = ⟨200, none⟩) :=
  rejected_terminal_except_request c8Store
    { id := "r1", email := "a@x.com", firstName := "Al", lastName := "Bee",
      role := "CLINICIAN", status := "REJECTED",
      verificationCode := none, verificationExpires := none,
      adminNotes := some "incomplete info", requestedAt := 0 }
    "r1" ⟨"a@x.com", "Al", "Bee", "CLINICIAN"⟩
    "123456" "password123" "tok-0123456789" "h" "u9" "654321" "ct" "r2"
    none (some "again")
    { id := "admin-1", email := "admin@x.com", passwordHash := "h", firstName := "Ad",
      lastName := "Min", role := "ADMIN", isActive := true }
    7 true rfl rfl rfl (by decide) rfl

/-- C9 fixture: an existing user with lowercase email `a@x.com`. -/
def c9User : User :=
  { id := "u1", email := "a@x.com", passwordHash := "h", firstName := "Al",
    lastName := "Bee", role := "CLINICIAN", isActive := true }

/-- C9 fixture: a store with the lowercase user and an APPROVED request
for the case variant `A@x.com`. -/
def c9Store : Store :=
  ⟨[c9User],
   [{ id := "r1", email := "A@x.com", firstName := "Al", lastName := "Bee",
      role := "CLINICIAN", status := "APPROVED",
      verificationCode := none, verificationExpires := none,
      completionToken := some "tok-0123456789",
      completionTokenExpires := some 99999, requestedAt := 0 }]⟩

/-- C9: the claim fails on the code.  `POST /request-registration` and
`POST /complete-registration` look the user up with the raw submitted
email (`where: { email }`), not a lowercased one, so the case variant
`A@x.com` of the existing user `a@x.com` passes their user-exists checks:
Request succeeds instead of failing `USER_EXISTS`, and Complete creates a
second user whose email differs from the first only by letter case.  The
login route, by contrast, lowercases (`where: { email:
email.toLowerCase() }`), so its lookup for any case variant resolves to
the lowercase user and can never reach the user Complete just created —
the code's own login contradicts its registration paths. -/
theorem request_and_complete_email_case_sensitive :
    (requestRegistration ⟨[c9User], []⟩ ⟨"A@x.com", "Al", "Bee", "CLINICIAN"⟩
        "111111" "r9" 10 true).fst = ⟨200, none⟩ ∧
    (completeRegistration c9Store "A@x.com" "password123" "tok-0123456789" "hash" "u2" 10).fst
        = ⟨200, none⟩ ∧
    (completeRegistration c9Store "A@x.com" "password123" "tok-0123456789" "hash" "u2" 10).snd.users.map
        (fun u => u.email) = ["a@x.com", "A@x.com"] ∧
    ("A@x.com" : String) ≠ "a@x.com" ∧
    toLowerString "A@x.com" = toLowerString "a@x.com" ∧
    findUserByEmail
        (completeRegistration c9Store "A@x.com" "password123" "tok-0123456789" "hash" "u2" 10).snd
        (toLowerString "A@x.com") = some c9User := by
  refine ⟨rfl, rfl, rfl, ?_, ?_, ?_⟩
  · decide
  · decide
  · rfl

end ChartBreaker
